import Mathlib

/-
Verification of the FastAPI_chat real-time messaging core.

The definitions below are a shallow embedding of the repository's Python
source (src/app/crud.py, src/app/websocket.py, src/app/main.py):
pure computations become Lean functions, the database session becomes an
explicit `DB` state, the WebSocket connection dictionary becomes an
association list, and exceptions become explicit `Except` / flag results.
-/

set_option autoImplicit false

namespace FastAPIChat

/- ### Decimal rendering of Python integers

`crud.create_message` builds the dedup fingerprint from the f-string
`f"{message.chat_id}_{message.sender_id}_{message.text}"`.  Python's
str() on an int renders the decimal digits, with a leading '-' for
negatives.  We embed that rendering with fuel-based structural recursion
so that the kernel can evaluate it. -/

/-- Character for a decimal digit d (0 ≤ d ≤ 9), as Python str() emits it. -/
def digitChar (d : Nat) : Char := Char.ofNat (48 + d)

/-- Little-endian decimal digits of `n`, with `fuel` bounding the recursion
depth; `fuel = n` is always sufficient. -/
def natDecRevFuel : Nat → Nat → List Char
  | _, 0 => []
  | 0, _ + 1 => []
  | f + 1, n + 1 => digitChar ((n + 1) % 10) :: natDecRevFuel f ((n + 1) / 10)

/-- Little-endian decimal digits of `n` (empty for 0). -/
def natDecRev (n : Nat) : List Char := natDecRevFuel n n

/-- Decimal rendering of a natural number, as Python str() produces it. -/
def natDec (n : Nat) : List Char :=
  if n = 0 then ['0'] else (natDecRev n).reverse

/-- Decimal rendering of a Python int, with '-' sign for negatives. -/
def intDec (i : Int) : List Char :=
  if i < 0 then '-' :: natDec i.natAbs else natDec i.natAbs

/-- Value of a little-endian digit list; inverse of `natDecRev`. -/
def valRev : List Char → Nat
  | [] => 0
  | c :: rest => (c.toNat - 48) + 10 * valRev rest

/-- Value of a big-endian digit list; inverse of `natDec`. -/
def decVal (l : List Char) : Nat := valRev l.reverse

/- ### The duplicate-guard fingerprint (crud.create_message, line 54)

The source computes
`hashlib.sha256(f"{chat_id}_{sender_id}_{text}".encode()).hexdigest()`.
We embed the pre-hash string exactly; the SHA-256 hexdigest itself is kept
abstract as a parameter `hashFn` of the operations that consume it, since
every claim about it is stated up to hash collisions. -/

/-- Character sequence of the pre-hash f-string
`f"{chat_id}_{sender_id}_{text}"` from crud.create_message. -/
def preHashChars (chat_id sender_id : Int) (text : List Char) : List Char :=
  intDec chat_id ++ '_' :: (intDec sender_id ++ '_' :: text)

/-- The pre-hash string fed to SHA-256 by crud.create_message; its UTF-8
encoding is the hashed byte sequence, and distinct strings have distinct
UTF-8 encodings. -/
def preHashStr (chat_id sender_id : Int) (text : String) : String :=
  String.mk (preHashChars chat_id sender_id text.toList)

/- ### Data model (src/app/models.py) -/

/-- Row of the chats table (only the column the websocket path reads). -/
structure Chat where
  id : Int
deriving DecidableEq

/-- Row of the groups table (columns the websocket path reads). -/
structure Group where
  id : Int
  chat_id : Int
deriving DecidableEq

/-- Row of the messages table (models.Message). -/
structure Message where
  id : Int
  chat_id : Int
  sender_id : Int
  text : String
  timestamp : Nat
  is_read : Bool
  message_hash : String
deriving DecidableEq

/-- Pydantic schema MessageCreate (schemas.py). -/
structure MessageCreate where
  chat_id : Int
  sender_id : Int
  text : String
  is_read : Bool
deriving DecidableEq

/-- Database state visible to the websocket path: the three tables it
touches plus an id allocator and a clock supplying `timestamp` defaults. -/
structure DB where
  chats : List Chat
  groups : List Group
  messages : List Message
  nextId : Int
  clock : Nat
deriving DecidableEq

/-- Exception actually raised by the embedded gateway code.  The duplicate
branch of crud.create_message executes
`raise HTTPException(status_code=400, detail="Сообщение уже отправлено")`,
but HTTPException there is http.client.HTTPException (crud.py line 20), a
bare Exception subclass that accepts no keyword arguments — so the raise
statement itself raises TypeError before any HTTPException exists. -/
inductive PyError where
  | typeError
deriving DecidableEq

/-- crud.create_message: fingerprint the triple; when a message with the
same fingerprint exists the rejection path tries to construct
http.client.HTTPException with keyword arguments and thereby raises
TypeError (see PyError); otherwise insert the new row and return it.
`hashFn` stands for the SHA-256 hexdigest applied to the pre-hash
string. -/
def create_message (hashFn : String → String) (db : DB) (m : MessageCreate) :
    Except PyError (DB × Message) :=
  let message_hash := hashFn (preHashStr m.chat_id m.sender_id m.text)
  match db.messages.find? (fun x => x.message_hash == message_hash) with
  | some _ => Except.error PyError.typeError
  | none =>
    let msg : Message :=
      { id := db.nextId
        chat_id := m.chat_id
        sender_id := m.sender_id
        text := m.text
        timestamp := db.clock
        is_read := m.is_read
        message_hash := message_hash }
    Except.ok
      ({ db with
          messages := db.messages ++ [msg]
          nextId := db.nextId + 1
          clock := db.clock + 1 },
       msg)

/-- Sets is_read := true on the first message row with the given id
(the ORM mutation inside crud.mark_message_as_read). -/
def setRead : List Message → Int → List Message
  | [], _ => []
  | m :: rest, mid =>
    if m.id == mid then { m with is_read := true } :: rest
    else m :: setRead rest mid

/-- crud.mark_message_as_read: find the message by id; if found flip
is_read to true and return the updated row, else return none. -/
def mark_message_as_read (db : DB) (message_id : Int) : DB × Option Message :=
  match db.messages.find? (fun m => m.id == message_id) with
  | none => (db, none)
  | some m =>
    ({ db with messages := setRead db.messages message_id },
     some { m with is_read := true })

/- ### ConnectionManager (src/app/websocket.py, lines 18-42)

`active_connections` is a Python dict from chat id to a list of live
websockets; we embed it as an association list in insertion order, and a
connection as a Nat handle. -/

abbrev Conn := Nat

abbrev Registry := List (Int × List Conn)

namespace ConnectionManager

/-- Python `d.get(k)` / `k in d` on active_connections. -/
def lookup : Registry → Int → Option (List Conn)
  | [], _ => none
  | (k, l) :: rest, c => if k = c then some l else lookup rest c

/-- Python dict assignment `d[k] = v`: overwrite the entry if the key is
present, otherwise append a new entry (insertion order). -/
def setEntry : Registry → Int → List Conn → Registry
  | [], k, v => [(k, v)]
  | (k', l) :: rest, k, v =>
    if k' = k then (k, v) :: rest else (k', l) :: setEntry rest k v

/-- Python `del d[k]` on active_connections. -/
def eraseKey : Registry → Int → Registry
  | [], _ => []
  | (k', l) :: rest, k => if k' = k then rest else (k', l) :: eraseKey rest k

/-- Python `list.remove(w)`: drop the first occurrence (the raising case
when `w` is absent is handled by the caller `disconnect`). -/
def removeFirst : List Conn → Conn → List Conn
  | [], _ => []
  | x :: rest, w => if x = w then rest else x :: removeFirst rest w

/-- ConnectionManager.connect state effect: create an empty list for a new
chat id, then unconditionally append the websocket. -/
def connect (r : Registry) (w : Conn) (chat_id : Int) : Registry :=
  match lookup r chat_id with
  | none => setEntry r chat_id [w]
  | some l => setEntry r chat_id (l ++ [w])

/-- ConnectionManager.disconnect: if the chat id has an entry, remove the
websocket from its list (Python list.remove raises ValueError when the
websocket is absent — the returned Bool records that exception, with the
registry left unchanged), and delete the entry when the list empties.
No-op when the chat id has no entry. -/
def disconnect (r : Registry) (w : Conn) (chat_id : Int) : Registry × Bool :=
  match lookup r chat_id with
  | none => (r, false)
  | some l =>
    if w ∈ l then
      let l' := removeFirst l w
      if l' = [] then (eraseKey r chat_id, false)
      else (setEntry r chat_id l', false)
    else (r, true)

/-- Registry states reachable from the empty dict by completed connect and
disconnect calls (a disconnect whose list.remove raises leaves the state
unchanged, which the disconnect state effect already captures). -/
inductive Reachable : Registry → Prop where
  | start : Reachable []
  | doConnect {r : Registry} (w : Conn) (c : Int) :
      Reachable r → Reachable (connect r w c)
  | doDisconnect {r : Registry} (w : Conn) (c : Int) :
      Reachable r → Reachable (disconnect r w c).1

/-- ConnectionManager.broadcast body: send the serialized message to each
connection of the chat in list order.  `fails c = true` models
`connection.send_text` raising on connection `c`; the body has no
per-connection exception handler, so a raise aborts the iteration.
Returns the completed deliveries and whether an exception propagated. -/
def sendAll (fails : Conn → Bool) (msg : String) :
    List Conn → List (Conn × String) × Bool
  | [] => ([], false)
  | c :: rest =>
    if fails c then ([], true)
    else
      let res := sendAll fails msg rest
      ((c, msg) :: res.1, res.2)

/-- ConnectionManager.broadcast: look up the chat's connection list and
deliver to each member in order; no-op when the chat id is absent. -/
def broadcast (fails : Conn → Bool) (r : Registry) (chat_id : Int)
    (msg : String) : List (Conn × String) × Bool :=
  match lookup r chat_id with
  | none => ([], false)
  | some conns => sendAll fails msg conns

end ConnectionManager

/- ### Session handler: one iteration of the websocket_endpoint receive
loop (src/app/websocket.py, lines 47-122)

One inbound frame is decoded, validated and dispatched; the outputs are
the frames the iteration sends, each paired with its target connection
(error frames go to the submitting connection via send_text, events go to
every registered connection via manager.broadcast).  The broadcast here
records the intended deliveries; the failure behaviour of the broadcast
loop itself is modelled separately by ConnectionManager.broadcast. -/

/-- Outbound frame content: json.dumps of an error object, or of an event
object carrying the action tag and the full message row. -/
inductive Payload where
  | errorFrame (msg : String)
  | event (action : String) (m : Message)
deriving DecidableEq

/-- Fields the handler reads from a decoded inbound JSON object via
message_data.get, typed per the protocol schema; an absent key yields
none. -/
structure Frame where
  action : Option String
  sender_id : Option Int
  text : Option String
  message_id : Option Int
deriving DecidableEq

/-- Result of json.loads on the received text: a decode failure or a
decoded object. -/
inductive InFrame where
  | malformed
  | parsed (f : Frame)
deriving DecidableEq

/-- Python truthiness of an optional int field: None and 0 are falsy. -/
def truthyInt : Option Int → Bool
  | none => false
  | some n => n != 0

/-- Python truthiness of an optional string field: None and "" are falsy. -/
def truthyStr : Option String → Bool
  | none => false
  | some s => s != ""

/-- Resolution of the persistence target chat id (websocket.py lines
62-73): db.get on Group or Chat by chat_or_group_id, then
`chat.id if not is_group else chat.chat_id`. -/
def resolveChatId (db : DB) (is_group : Bool) (chat_or_group_id : Int) :
    Option Int :=
  if is_group then
    (db.groups.find? (fun g => g.id == chat_or_group_id)).map (fun g => g.chat_id)
  else
    (db.chats.find? (fun c => c.id == chat_or_group_id)).map (fun c => c.id)

/-- Deliveries performed by manager.broadcast when every send succeeds:
the payload goes to each connection registered for the chat id, in order;
nothing is sent when the chat id has no entry. -/
def broadcastSends (r : Registry) (chat_id : Int) (p : Payload) :
    List (Conn × Payload) :=
  match ConnectionManager.lookup r chat_id with
  | none => []
  | some conns => conns.map (fun c => (c, p))

/-- Error-frame text chosen by the except chain at websocket.py lines
113-117: an HTTPException's detail would be forwarded by line 113, but the
only exception the gateway raises is the TypeError of PyError, which falls
through to `except Exception` at line 115 and yields the generic
internal-error frame — the except-HTTPException branch is dead code. -/
def exnFrame : PyError → String
  | PyError.typeError => "Внутренняя ошибка сервера"

/-- One iteration of the websocket_endpoint receive loop: returns the
database state after the iteration and the list of (target connection,
payload) sends it performs.  `self` is the submitting connection,
`r` the registry at broadcast time, `hashFn` the SHA-256 hexdigest used
by create_message.  Every error path sends only to `self` and leaves the
database unchanged, mirroring the except handlers of lines 113-122. -/
def websocket_endpoint_step (hashFn : String → String) (is_group : Bool)
    (chat_or_group_id : Int) (r : Registry) (self : Conn) (db : DB)
    (inp : InFrame) : DB × List (Conn × Payload) :=
  match inp with
  | InFrame.malformed =>
    (db, [(self, Payload.errorFrame "Неверный формат JSON")])
  | InFrame.parsed f =>
    if !(truthyInt f.sender_id) || !(truthyStr f.text) then
      (db, [(self, Payload.errorFrame "Неверный формат сообщения")])
    else
      let sender_id := f.sender_id.getD 0
      let text := f.text.getD ""
      if f.action == some "send_message" then
        match resolveChatId db is_group chat_or_group_id with
        | none => (db, [(self, Payload.errorFrame "Чат или группа не найдена")])
        | some cid =>
          match create_message hashFn db
              { chat_id := cid, sender_id := sender_id, text := text,
                is_read := false } with
          | Except.error e => (db, [(self, Payload.errorFrame (exnFrame e))])
          | Except.ok res =>
            (res.1,
             broadcastSends r chat_or_group_id
               (Payload.event "new_message" res.2))
      else if f.action == some "mark_as_read" then
        if !(truthyInt f.message_id) then
          (db, [(self, Payload.errorFrame "Не указан ID сообщения")])
        else
          match mark_message_as_read db (f.message_id.getD 0) with
          | (_, none) =>
            (db, [(self, Payload.errorFrame "Сообщение не найдено")])
          | (db', some msg) =>
            (db',
             broadcastSends r chat_or_group_id
               (Payload.event "message_read" msg))
      else (db, [])

/- ### Connection initiation (src/app/main.py, websocket_route) -/

/-- Query parameters of the websocket handshake; an absent parameter is
none (websocket.query_params.get). -/
structure QueryParams where
  token : Option String
  chat_id : Option String
  group_id : Option String

/-- Decimal digit test for `pyInt`. -/
def isDigitChar (c : Char) : Bool := 48 ≤ c.toNat && c.toNat ≤ 57

/-- Python int() applied to a query-parameter string: an optional minus
sign followed by decimal digits; anything else raises ValueError (none).
Surrounding whitespace, which Python also accepts, is not modelled. -/
def pyInt (s : String) : Option Int :=
  match s.toList with
  | [] => none
  | '-' :: rest =>
    if rest.isEmpty then none
    else if rest.all isDigitChar then some (-(decVal rest : Int)) else none
  | l =>
    if l.all isDigitChar then some ((decVal l : Int)) else none

/-- Parameter names of websocket_endpoint as defined in
src/app/websocket.py line 44; the function has no **kwargs. -/
def websocket_endpoint_param_names : List String :=
  ["websocket", "chat_or_group_id", "is_group"]

/-- Outcome of websocket_route before any frame is processed: a policy
close with its reason, a ValueError from int() on a non-numeric id, or a
call of websocket_endpoint carrying the conversation id, the is_group
flag, and the keyword-argument names used at the call site. -/
inductive RouteOutcome where
  | closed (reason : String)
  | valueErrorCrash
  | call (chat_or_group_id : Int) (is_group : Bool) (kwargNames : List String)
deriving DecidableEq

/-- Python raises TypeError when a call passes a keyword argument that the
callee's signature does not accept. -/
def callRaisesTypeError (kwargNames : List String) : Bool :=
  kwargNames.any (fun k => !(websocket_endpoint_param_names.contains k))

/-- main.py websocket_route: require a truthy token, verify it (`verify`
abstracts get_current_user_websocket succeeding), require a truthy chat_id
or group_id, then dispatch to websocket_endpoint — the chat_id branch
first, passing keywords is_group and user_email as written at lines
72 and 74. -/
def websocket_route (verify : String → Bool) (p : QueryParams) :
    RouteOutcome :=
  if !(truthyStr p.token) then RouteOutcome.closed "Токен обязателен"
  else if !(verify (p.token.getD "")) then RouteOutcome.closed "Неверный токен"
  else if !(truthyStr p.chat_id) && !(truthyStr p.group_id) then
    RouteOutcome.closed "chat_id или group_id обязателен"
  else if truthyStr p.chat_id then
    match pyInt (p.chat_id.getD "") with
    | none => RouteOutcome.valueErrorCrash
    | some n => RouteOutcome.call n false ["is_group", "user_email"]
  else
    match pyInt (p.group_id.getD "") with
    | none => RouteOutcome.valueErrorCrash
    | some n => RouteOutcome.call n true ["is_group", "user_email"]

/- ### Theorems: decimal rendering and fingerprint injectivity -/

theorem digitChar_toNat {d : Nat} (h : d < 10) : (digitChar d).toNat = 48 + d := by
  interval_cases d <;> decide

theorem valRev_natDecRevFuel : ∀ f n, n ≤ f → valRev (natDecRevFuel f n) = n
  | 0, 0, _ => rfl
  | _ + 1, 0, _ => rfl
  | 0, m + 1, h => absurd h (by omega)
  | f + 1, m + 1, _ => by
    simp only [natDecRevFuel, valRev]
    rw [valRev_natDecRevFuel f ((m + 1) / 10) (by omega)]
    rw [digitChar_toNat (Nat.mod_lt _ (by omega))]
    omega

theorem natDecRev_val (n : Nat) : valRev (natDecRev n) = n :=
  valRev_natDecRevFuel n n (Nat.le_refl n)

theorem decVal_natDec (n : Nat) : decVal (natDec n) = n := by
  unfold decVal natDec
  by_cases h : n = 0
  · subst h; decide
  · simp only [if_neg h, List.reverse_reverse]
    exact natDecRev_val n

theorem natDec_inj {a b : Nat} (h : natDec a = natDec b) : a = b := by
  have := congrArg decVal h
  rwa [decVal_natDec, decVal_natDec] at this

theorem mem_natDecRevFuel_digit :
    ∀ f n (c : Char), c ∈ natDecRevFuel f n → 48 ≤ c.toNat ∧ c.toNat ≤ 57
  | _, 0, c, h => by simp [natDecRevFuel] at h
  | 0, _ + 1, c, h => by simp [natDecRevFuel] at h
  | f + 1, m + 1, c, h => by
    simp only [natDecRevFuel, List.mem_cons] at h
    rcases h with h | h
    · subst h
      rw [digitChar_toNat (Nat.mod_lt _ (by omega))]
      omega
    · exact mem_natDecRevFuel_digit f ((m + 1) / 10) c h

theorem mem_natDec_digit {n : Nat} {c : Char} (h : c ∈ natDec n) :
    48 ≤ c.toNat ∧ c.toNat ≤ 57 := by
  unfold natDec at h
  by_cases h0 : n = 0
  · rw [if_pos h0] at h
    simp only [List.mem_singleton] at h
    subst h; decide
  · rw [if_neg h0, List.mem_reverse] at h
    exact mem_natDecRevFuel_digit n n c h

theorem underscore_not_mem_natDec (n : Nat) : '_' ∉ natDec n := by
  intro h
  have := mem_natDec_digit h
  have hu : ('_').toNat = 95 := rfl
  omega

theorem minus_not_mem_natDec (n : Nat) : '-' ∉ natDec n := by
  intro h
  have := mem_natDec_digit h
  have hm : ('-').toNat = 45 := rfl
  omega

theorem underscore_not_mem_intDec (i : Int) : '_' ∉ intDec i := by
  unfold intDec
  by_cases h : i < 0
  · rw [if_pos h]
    intro hm
    rcases List.mem_cons.mp hm with h1 | h1
    · exact absurd h1 (by decide)
    · exact underscore_not_mem_natDec _ h1
  · rw [if_neg h]
    exact underscore_not_mem_natDec _

theorem intDec_inj {a b : Int} (h : intDec a = intDec b) : a = b := by
  unfold intDec at h
  by_cases ha : a < 0 <;> by_cases hb : b < 0
  · rw [if_pos ha, if_pos hb] at h
    injection h with _ h2
    have := natDec_inj h2
    omega
  · rw [if_pos ha, if_neg hb] at h
    exact absurd (h ▸ List.mem_cons_self '-' (natDec a.natAbs))
      (minus_not_mem_natDec b.natAbs)
  · rw [if_neg ha, if_pos hb] at h
    exact absurd (h.symm ▸ List.mem_cons_self '-' (natDec b.natAbs))
      (minus_not_mem_natDec a.natAbs)
  · rw [if_neg ha, if_neg hb] at h
    have := natDec_inj h
    omega

theorem append_sep_inj (sep : Char) :
    ∀ (xs ys u v : List Char), sep ∉ xs → sep ∉ ys →
      xs ++ sep :: u = ys ++ sep :: v → xs = ys ∧ u = v
  | [], [], u, v, _, _, h => by
    rw [List.nil_append, List.nil_append] at h
    injection h with _ h2
    exact ⟨rfl, h2⟩
  | [], y :: ys, u, v, _, hy, h => by
    rw [List.nil_append, List.cons_append] at h
    injection h with h1 _
    subst h1
    exact absurd (List.mem_cons_self sep ys) hy
  | x :: xs, [], u, v, hx, _, h => by
    rw [List.cons_append, List.nil_append] at h
    injection h with h1 _
    subst h1
    exact absurd (List.mem_cons_self x xs) hx
  | x :: xs, y :: ys, u, v, hx, hy, h => by
    rw [List.cons_append, List.cons_append] at h
    injection h with h1 h2
    have hx' : sep ∉ xs := fun hm => hx (List.mem_cons_of_mem x hm)
    have hy' : sep ∉ ys := fun hm => hy (List.mem_cons_of_mem y hm)
    have ih := append_sep_inj sep xs ys u v hx' hy' h2
    exact ⟨by rw [h1, ih.1], ih.2⟩

theorem preHashChars_inj {c s c' s' : Int} {t t' : List Char}
    (h : preHashChars c s t = preHashChars c' s' t') :
    c = c' ∧ s = s' ∧ t = t' := by
  unfold preHashChars at h
  have h1 := append_sep_inj '_' (intDec c) (intDec c') _ _
    (underscore_not_mem_intDec c) (underscore_not_mem_intDec c') h
  have h2 := append_sep_inj '_' (intDec s) (intDec s') _ _
    (underscore_not_mem_intDec s) (underscore_not_mem_intDec s') h1.2
  exact ⟨intDec_inj h1.1, intDec_inj h2.1, h2.2⟩

/-- Claim C5: the fingerprint computation is injective on its inputs up to
hash collisions — for every two distinct triples (conversation_id,
sender_id, text), the pre-hash strings built by
`f"{chat_id}_{sender_id}_{text}"` in crud.create_message are distinct
(stated contrapositively), so the SHA-256 keys differ except on a hash
collision; distinct strings also have distinct UTF-8 byte sequences. -/
theorem C5_fingerprint_preimage_injective (c s c' s' : Int) (t t' : String)
    (h : preHashStr c s t = preHashStr c' s' t') :
    c = c' ∧ s = s' ∧ t = t' := by
  unfold preHashStr at h
  injection h with h
  have hc := preHashChars_inj h
  refine ⟨hc.1, hc.2.1, ?_⟩
  obtain ⟨ld⟩ := t
  obtain ⟨ld'⟩ := t'
  exact congrArg String.mk hc.2.2

/-- Claim C5 witness: the theorem applied at a concrete input. -/
theorem C5_fingerprint_witness :
    preHashStr 1 2 "a" = preHashStr 1 2 "a" ∧
      ((1 : Int) = 1 ∧ (2 : Int) = 2 ∧ "a" = "a") :=
  ⟨rfl, C5_fingerprint_preimage_injective 1 2 1 2 "a" "a" rfl⟩

/- ### Theorems: connection registry -/

namespace ConnectionManager

theorem mem_setEntry :
    ∀ (r : Registry) (k : Int) (v : List Conn) (p : Int × List Conn),
      p ∈ setEntry r k v → p = (k, v) ∨ p ∈ r
  | [], k, v, p, h => by
    simp only [setEntry, List.mem_singleton] at h
    exact Or.inl h
  | (k', l) :: rest, k, v, p, h => by
    unfold setEntry at h
    by_cases hk : k' = k
    · rw [if_pos hk] at h
      rcases List.mem_cons.mp h with h | h
      · exact Or.inl h
      · exact Or.inr (List.mem_cons_of_mem _ h)
    · rw [if_neg hk] at h
      rcases List.mem_cons.mp h with h | h
      · exact Or.inr (h ▸ List.mem_cons_self _ _)
      · rcases mem_setEntry rest k v p h with h2 | h2
        · exact Or.inl h2
        · exact Or.inr (List.mem_cons_of_mem _ h2)

theorem mem_eraseKey :
    ∀ (r : Registry) (k : Int) (p : Int × List Conn),
      p ∈ eraseKey r k → p ∈ r
  | [], _, p, h => by simp [eraseKey] at h
  | (k', l) :: rest, k, p, h => by
    unfold eraseKey at h
    by_cases hk : k' = k
    · rw [if_pos hk] at h
      exact List.mem_cons_of_mem _ h
    · rw [if_neg hk] at h
      rcases List.mem_cons.mp h with h | h
      · exact h ▸ List.mem_cons_self _ _
      · exact List.mem_cons_of_mem _ (mem_eraseKey rest k p h)

theorem lookup_setEntry_self :
    ∀ (r : Registry) (k : Int) (v : List Conn),
      lookup (setEntry r k v) k = some v
  | [], k, v => by simp [setEntry, lookup]
  | (k', l) :: rest, k, v => by
    unfold setEntry
    by_cases hk : k' = k
    · rw [if_pos hk]
      simp [lookup]
    · rw [if_neg hk]
      unfold lookup
      rw [if_neg hk]
      exact lookup_setEntry_self rest k v

theorem reachable_entry_ne_nil {r : Registry} (h : Reachable r) :
    ∀ k l, (k, l) ∈ r → l ≠ [] := by
  induction h with
  | start => intro k l hm; simp at hm
  | @doConnect r w c _ ih =>
    intro k l hm
    unfold connect at hm
    cases hlook : lookup r c with
    | none =>
      rw [hlook] at hm
      rcases mem_setEntry r c [w] (k, l) hm with h2 | h2
      · cases h2; simp
      · exact ih k l h2
    | some l₀ =>
      rw [hlook] at hm
      rcases mem_setEntry r c (l₀ ++ [w]) (k, l) hm with h2 | h2
      · cases h2; simp
      · exact ih k l h2
  | @doDisconnect r w c _ ih =>
    intro k l hm
    unfold disconnect at hm
    cases hlook : lookup r c with
    | none =>
      rw [hlook] at hm
      exact ih k l hm
    | some l₀ =>
      rw [hlook] at hm
      dsimp only at hm
      by_cases hw : w ∈ l₀
      · rw [if_pos hw] at hm
        by_cases hnil : removeFirst l₀ w = []
        · rw [if_pos hnil] at hm
          exact ih k l (mem_eraseKey r c (k, l) hm)
        · rw [if_neg hnil] at hm
          rcases mem_setEntry r c (removeFirst l₀ w) (k, l) hm with h2 | h2
          · cases h2; exact hnil
          · exact ih k l h2
      · rw [if_neg hw] at hm
        exact ih k l hm

end ConnectionManager

/-- Claim C6: in every reachable state of the connection registry
(starting from the empty dict, after any sequence of completed connect and
disconnect operations), every conversation id present as a key maps to a
non-empty connection list — the entry is removed as soon as the last
connection leaves, so no key ever maps to an empty list. -/
theorem C6_registry_no_empty_entry (r : Registry) (k : Int) (l : List Conn)
    (h : ConnectionManager.Reachable r) (hm : (k, l) ∈ r) : l ≠ [] :=
  ConnectionManager.reachable_entry_ne_nil h k l hm

/-- Claim C6 witness: the theorem applied to the reachable registry
obtained by one connect on the empty dict. -/
theorem C6_registry_witness :
    ((5 : Int), [0]) ∈ ConnectionManager.connect [] 0 5 ∧
      ([0] : List Conn) ≠ [] :=
  ⟨by decide,
   C6_registry_no_empty_entry (ConnectionManager.connect [] 0 5) 5 [0]
     (ConnectionManager.Reachable.doConnect 0 5 ConnectionManager.Reachable.start)
     (by decide)⟩

/-- Claim C7 counterexample: registering the same connection twice for the
same conversation is not idempotent — ConnectionManager.connect appends
unconditionally, so the second registration produces the duplicate list
[0, 0] and a state different from registering once, refuting the claim
that register is an idempotent set-like add. -/
theorem C7_counterexample :
    ConnectionManager.connect (ConnectionManager.connect [] 0 1) 0 1 ≠
        ConnectionManager.connect [] 0 1 ∧
      ConnectionManager.lookup
        (ConnectionManager.connect (ConnectionManager.connect [] 0 1) 0 1) 1 =
        some [0, 0] := by
  constructor
  · decide
  · decide

/-- Claim C7 amended: register unconditionally appends the connection to
the conversation's membership list (creating the entry when absent), so
registering an already-registered connection adds a duplicate entry rather
than leaving the registry unchanged. -/
theorem C7_register_appends (r : Registry) (w : Conn) (c : Int) :
    ConnectionManager.lookup (ConnectionManager.connect r w c) c =
      some ((ConnectionManager.lookup r c).getD [] ++ [w]) := by
  unfold ConnectionManager.connect
  cases h : ConnectionManager.lookup r c with
  | none => simp [ConnectionManager.lookup_setEntry_self]
  | some l => simp [ConnectionManager.lookup_setEntry_self]

/-- Claim C8 counterexample: unregistering a connection that is not a
member of an existing conversation's list does not leave the registry
silently unchanged — Python list.remove raises ValueError (the Bool
component), refuting the claim that such an unregister raises no error. -/
theorem C8_counterexample :
    ConnectionManager.disconnect [((1 : Int), [5])] 7 1 =
      ([((1 : Int), [5])], true) := by decide

/-- Claim C8 amended: when the target connection is not registered for the
conversation, disconnect leaves the registry unchanged; it is a silent
no-op when the conversation id has no entry, but raises ValueError (flag
true) when the entry exists and the connection is not in its list. -/
theorem C8_unregister_absent (r : Registry) (w : Conn) (c : Int)
    (h : w ∉ (ConnectionManager.lookup r c).getD []) :
    ConnectionManager.disconnect r w c =
      (r, (ConnectionManager.lookup r c).isSome) := by
  unfold ConnectionManager.disconnect
  cases hl : ConnectionManager.lookup r c with
  | none => simp
  | some l =>
    rw [hl] at h
    simp only [Option.getD_some] at h
    simp [h]

/-- Claim C8 witness: the amended theorem applied to a registry holding
conversation 1 with member 5, unregistering the absent member 7. -/
theorem C8_unregister_witness :
    (7 : Conn) ∉ (ConnectionManager.lookup [((1 : Int), [5])] 1).getD [] ∧
      ConnectionManager.disconnect [((1 : Int), [5])] 7 1 =
        ([((1 : Int), [5])],
         (ConnectionManager.lookup [((1 : Int), [5])] 1).isSome) :=
  ⟨by decide, C8_unregister_absent [((1 : Int), [5])] 7 1 (by decide)⟩

/- ### Theorems: broadcast dispatcher -/

theorem sendAll_eq (fails : Conn → Bool) (msg : String) :
    ∀ conns : List Conn,
      ConnectionManager.sendAll fails msg conns =
        ((conns.takeWhile (fun c => !(fails c))).map (fun c => (c, msg)),
         conns.any fails)
  | [] => rfl
  | c :: rest => by
    unfold ConnectionManager.sendAll
    cases hc : fails c with
    | true => simp [List.takeWhile_cons, List.any_cons, hc]
    | false => simp [List.takeWhile_cons, List.any_cons, hc, sendAll_eq fails msg rest]

/-- Claim C2 counterexample: with conversation 5 holding connections
[1, 2] at snapshot time and delivery to connection 1 failing, the
broadcast loop (which has no per-connection exception handler) delivers to
nobody — in particular not to connection 2, which was present at snapshot
time — and the exception propagates to the caller (flag true), refuting
both halves of the claim. -/
theorem C2_counterexample :
    ((2 : Conn), "m") ∉
        (ConnectionManager.broadcast (fun c => c == 1) [((5 : Int), [1, 2])] 5 "m").1 ∧
      (ConnectionManager.broadcast (fun c => c == 1) [((5 : Int), [1, 2])] 5 "m").2 = true := by
  constructor
  · decide
  · decide

/-- Claim C2 amended: broadcast attempts delivery in registration order;
every member before the first failing connection receives the message
exactly once, a failing send aborts the remaining deliveries, and the
exception propagates to the caller exactly when some member's send fails —
in particular, when no send fails every member present at snapshot time
receives the message exactly once and no error propagates. -/
theorem C2_broadcast_behaviour (fails : Conn → Bool) (r : Registry)
    (cid : Int) (msg : String) :
    ConnectionManager.broadcast fails r cid msg =
      match ConnectionManager.lookup r cid with
      | none => ([], false)
      | some conns =>
        ((conns.takeWhile (fun c => !(fails c))).map (fun c => (c, msg)),
         conns.any fails) := by
  unfold ConnectionManager.broadcast
  cases hl : ConnectionManager.lookup r cid with
  | none => rfl
  | some conns => exact sendAll_eq fails msg conns

/- ### Theorems: session handler frame processing -/

/-- Claim C9: the handler requires a truthy sender_id and a truthy text
before dispatching, regardless of the action — a frame whose sender_id is
the integer 0 or whose text is the empty string is answered with the
malformed-message error frame on the submitting connection, with no
persistence and no broadcast, even though both fields are present. -/
theorem C9_falsy_fields_rejected (hashFn : String → String)
    (is_group : Bool) (cgid : Int) (r : Registry) (self : Conn) (db : DB)
    (f : Frame) (h : f.sender_id = some 0 ∨ f.text = some "") :
    websocket_endpoint_step hashFn is_group cgid r self db (InFrame.parsed f) =
      (db, [(self, Payload.errorFrame "Неверный формат сообщения")]) := by
  unfold websocket_endpoint_step
  dsimp only
  rcases h with h | h
  · rw [h]
    simp [truthyInt]
  · rw [h]
    simp [truthyStr]

/-- Claim C9 witness: a send_message frame with sender_id 0 and non-empty
text is rejected as malformed. -/
theorem C9_falsy_fields_witness :
    (Frame.mk (some "send_message") (some 0) (some "hi") none).sender_id = some 0 ∧
      websocket_endpoint_step id false 42 [((42 : Int), [0, 1])] 0
          { chats := [{ id := 42 }], groups := [], messages := [],
            nextId := 1, clock := 0 }
          (InFrame.parsed (Frame.mk (some "send_message") (some 0) (some "hi") none)) =
        ({ chats := [{ id := 42 }], groups := [], messages := [],
           nextId := 1, clock := 0 },
         [(0, Payload.errorFrame "Неверный формат сообщения")]) :=
  ⟨rfl,
   C9_falsy_fields_rejected id false 42 [((42 : Int), [0, 1])] 0
     { chats := [{ id := 42 }], groups := [], messages := [],
       nextId := 1, clock := 0 }
     (Frame.mk (some "send_message") (some 0) (some "hi") none)
     (Or.inl rfl)⟩

/-- Claim C4 counterexample: a well-formed frame with unknown action
"frobnicate" and truthy sender_id and text produces no output at all — no
error frame is sent to the submitting connection, refuting the claim that
every unknown-action frame is answered with an error frame. -/
theorem C4_counterexample :
    websocket_endpoint_step id false 42 [((42 : Int), [0, 1])] 0
        { chats := [{ id := 42 }], groups := [], messages := [],
          nextId := 1, clock := 0 }
        (InFrame.parsed (Frame.mk (some "frobnicate") (some 1) (some "x") none)) =
      ({ chats := [{ id := 42 }], groups := [], messages := [],
         nextId := 1, clock := 0 }, []) := by decide

/-- Claim C4 amended: a malformed (non-JSON) frame is answered with a
local error frame and the loop continues, but a well-formed frame whose
action is neither send_message nor mark_as_read and which passes the
sender_id/text validation is silently dropped — the handler has no
fallthrough branch, so no error frame is produced and no state changes. -/
theorem C4_unknown_action_silent (hashFn : String → String)
    (is_group : Bool) (cgid : Int) (r : Registry) (self : Conn) (db : DB)
    (a : Option String) (sid : Int) (tx : String) (mi : Option Int)
    (hs : sid ≠ 0) (ht : tx ≠ "")
    (ha1 : a ≠ some "send_message") (ha2 : a ≠ some "mark_as_read") :
    websocket_endpoint_step hashFn is_group cgid r self db
        (InFrame.parsed (Frame.mk a (some sid) (some tx) mi)) = (db, []) ∧
      websocket_endpoint_step hashFn is_group cgid r self db InFrame.malformed =
        (db, [(self, Payload.errorFrame "Неверный формат JSON")]) := by
  constructor
  · unfold websocket_endpoint_step
    have h1 : (a == some "send_message") = false := by
      simp [ha1]
    have h2 : (a == some "mark_as_read") = false := by
      simp [ha2]
    simp [truthyInt, truthyStr, hs, ht, h1, h2]
  · rfl

/-- Claim C4 witness: the amended theorem at action "frobnicate". -/
theorem C4_unknown_action_witness :
    (7 : Int) ≠ 0 ∧ "x" ≠ "" ∧
      (some "frobnicate" ≠ some "send_message") ∧
      (some "frobnicate" ≠ some "mark_as_read") ∧
      (websocket_endpoint_step id false 42 [((42 : Int), [0, 1])] 0
          { chats := [{ id := 42 }], groups := [], messages := [],
            nextId := 1, clock := 0 }
          (InFrame.parsed (Frame.mk (some "frobnicate") (some 7) (some "x") none)) =
        ({ chats := [{ id := 42 }], groups := [], messages := [],
           nextId := 1, clock := 0 }, []) ∧
      websocket_endpoint_step id false 42 [((42 : Int), [0, 1])] 0
          { chats := [{ id := 42 }], groups := [], messages := [],
            nextId := 1, clock := 0 } InFrame.malformed =
        ({ chats := [{ id := 42 }], groups := [], messages := [],
           nextId := 1, clock := 0 },
         [(0, Payload.errorFrame "Неверный формат JSON")])) :=
  ⟨by decide, by decide, by decide, by decide,
   C4_unknown_action_silent id false 42 [((42 : Int), [0, 1])] 0
     { chats := [{ id := 42 }], groups := [], messages := [],
       nextId := 1, clock := 0 }
     (some "frobnicate") 7 "x" none
     (by decide) (by decide) (by decide) (by decide)⟩

/-- Claim C3 counterexample: a mark_as_read frame carrying only action and
message_id (no sender_id, no text), whose message_id 1 refers to an
existing unread message, is answered with the malformed-message error
frame on the submitting connection — the message stays unread and no
message_read event is broadcast, refuting the claim that no fields beyond
action and message_id are required. -/
theorem C3_counterexample :
    websocket_endpoint_step id false 42 [((42 : Int), [0, 1])] 0
        { chats := [{ id := 42 }], groups := [],
          messages := [{ id := 1, chat_id := 42, sender_id := 7, text := "hi",
                         timestamp := 0, is_read := false, message_hash := "h" }],
          nextId := 2, clock := 1 }
        (InFrame.parsed (Frame.mk (some "mark_as_read") none none (some 1))) =
      ({ chats := [{ id := 42 }], groups := [],
         messages := [{ id := 1, chat_id := 42, sender_id := 7, text := "hi",
                        timestamp := 0, is_read := false, message_hash := "h" }],
         nextId := 2, clock := 1 },
       [(0, Payload.errorFrame "Неверный формат сообщения")]) := by decide

/-- Claim C3 amended: a mark_as_read frame must additionally carry truthy
sender_id and text (and a truthy message_id) to pass the handler's
validation; given those, when message_id refers to an existing message the
handler marks it read and broadcasts a message_read event carrying the
full updated message to the conversation's full connection set, and when
it refers to no message a local error frame is sent to the submitting
connection with no broadcast and no state change. -/
theorem C3_mark_as_read_validated (hashFn : String → String)
    (is_group : Bool) (cgid : Int) (r : Registry) (self : Conn) (db : DB)
    (sid mid : Int) (tx : String)
    (hs : sid ≠ 0) (ht : tx ≠ "") (hmid : mid ≠ 0) :
    websocket_endpoint_step hashFn is_group cgid r self db
        (InFrame.parsed (Frame.mk (some "mark_as_read") (some sid) (some tx) (some mid))) =
      match db.messages.find? (fun m => m.id == mid) with
      | none => (db, [(self, Payload.errorFrame "Сообщение не найдено")])
      | some m =>
        ({ db with messages := setRead db.messages mid },
         broadcastSends r cgid
           (Payload.event "message_read" { m with is_read := true })) := by
  unfold websocket_endpoint_step mark_message_as_read
  dsimp only
  have hv : (!truthyInt (some sid) || !truthyStr (some tx)) = false := by
    simp [truthyInt, truthyStr, hs, ht]
  rw [hv]
  have ha : ((some "mark_as_read" : Option String) == some "send_message") = false := by
    decide
  have hm : (!truthyInt (some mid)) = false := by
    simp [truthyInt, hmid]
  simp only [Bool.false_eq_true, if_false, ha, hm]
  cases hf : db.messages.find? (fun m => m.id == mid) with
  | none => simp [hf]
  | some m => simp [hf]

/-- Claim C3 witness: the amended theorem applied at a database holding
message 1 unread, marking it read and broadcasting to both members. -/
theorem C3_mark_as_read_witness :
    (9 : Int) ≠ 0 ∧ "t" ≠ "" ∧ (1 : Int) ≠ 0 ∧
      websocket_endpoint_step id false 42 [((42 : Int), [0, 1])] 0
          { chats := [{ id := 42 }], groups := [],
            messages := [{ id := 1, chat_id := 42, sender_id := 7, text := "hi",
                           timestamp := 0, is_read := false, message_hash := "h" }],
            nextId := 2, clock := 1 }
          (InFrame.parsed (Frame.mk (some "mark_as_read") (some 9) (some "t") (some 1))) =
        match ({ chats := [{ id := 42 }], groups := [],
                 messages := [{ id := 1, chat_id := 42, sender_id := 7, text := "hi",
                                timestamp := 0, is_read := false, message_hash := "h" }],
                 nextId := 2, clock := 1 } : DB).messages.find?
            (fun m => m.id == (1 : Int)) with
        | none => (({ chats := [{ id := 42 }], groups := [],
                      messages := [{ id := 1, chat_id := 42, sender_id := 7, text := "hi",
                                     timestamp := 0, is_read := false, message_hash := "h" }],
                      nextId := 2, clock := 1 } : DB),
                   [(0, Payload.errorFrame "Сообщение не найдено")])
        | some m =>
          ({ ({ chats := [{ id := 42 }], groups := [],
                messages := [{ id := 1, chat_id := 42, sender_id := 7, text := "hi",
                               timestamp := 0, is_read := false, message_hash := "h" }],
                nextId := 2, clock := 1 } : DB) with
              messages := setRead
                [{ id := 1, chat_id := 42, sender_id := 7, text := "hi",
                   timestamp := 0, is_read := false, message_hash := "h" }] 1 },
           broadcastSends [((42 : Int), [0, 1])] 42
             (Payload.event "message_read" { m with is_read := true })) :=
  ⟨by decide, by decide, by decide,
   C3_mark_as_read_validated id false 42 [((42 : Int), [0, 1])] 0
     { chats := [{ id := 42 }], groups := [],
       messages := [{ id := 1, chat_id := 42, sender_id := 7, text := "hi",
                      timestamp := 0, is_read := false, message_hash := "h" }],
       nextId := 2, clock := 1 }
     9 1 "t" (by decide) (by decide) (by decide)⟩

theorem find?_append_of_none {α : Type} (p : α → Bool) :
    ∀ (l₁ l₂ : List α), l₁.find? p = none → (l₁ ++ l₂).find? p = l₂.find? p
  | [], _, _ => rfl
  | a :: l₁, l₂, h => by
    by_cases hpa : p a = true
    · rw [List.find?_cons_of_pos _ hpa] at h
      exact absurd h (by simp)
    · rw [List.find?_cons_of_neg _ hpa] at h
      rw [List.cons_append, List.find?_cons_of_neg _ hpa]
      exact find?_append_of_none p l₁ l₂ h

/-- Claim C1: after a send_message frame with triple (conversation,
sender, text) has been processed successfully, exactly one message with
that triple exists; processing the identical frame again — from any
connection of the conversation — persists no new message (the duplicate
guard rejects it by fingerprint), the state is unchanged so exactly one
message with the triple ever exists, and the only output of the second
attempt is an error frame on the submitting connection, with no broadcast
to any connection.  The frame sent is the generic internal-error frame:
the duplicate branch raises TypeError (PyError) while constructing
http.client.HTTPException, which the handler's `except Exception` converts
at websocket.py line 117.  `hwf` is the create_message invariant that
every stored fingerprint is the hash of its own row's triple, and `hfresh`
says the triple's fingerprint is not yet present. -/
theorem C1_duplicate_send_second_rejected
    (hashFn : String → String) (is_group : Bool) (cgid cid : Int)
    (r : Registry) (self self' : Conn) (db : DB) (s : Int) (t : String)
    (hs : s ≠ 0) (ht : t ≠ "")
    (hres : resolveChatId db is_group cgid = some cid)
    (hwf : ∀ m ∈ db.messages,
      m.message_hash = hashFn (preHashStr m.chat_id m.sender_id m.text))
    (hfresh : ∀ m ∈ db.messages,
      m.message_hash ≠ hashFn (preHashStr cid s t)) :
    ((websocket_endpoint_step hashFn is_group cgid r self db
        (InFrame.parsed (Frame.mk (some "send_message") (some s) (some t) none))).1.messages.filter
          (fun m => m.chat_id == cid && m.sender_id == s && m.text == t)).length = 1
    ∧ websocket_endpoint_step hashFn is_group cgid r self'
        (websocket_endpoint_step hashFn is_group cgid r self db
          (InFrame.parsed (Frame.mk (some "send_message") (some s) (some t) none))).1
        (InFrame.parsed (Frame.mk (some "send_message") (some s) (some t) none)) =
      ((websocket_endpoint_step hashFn is_group cgid r self db
          (InFrame.parsed (Frame.mk (some "send_message") (some s) (some t) none))).1,
       [(self', Payload.errorFrame "Внутренняя ошибка сервера")]) := by
  have hval : (!truthyInt (some s) || !truthyStr (some t)) = false := by
    simp [truthyInt, truthyStr, hs, ht]
  have hbeqS : ((some "send_message" : Option String) == some "send_message") = true := by
    decide
  have hfind : db.messages.find?
      (fun x => x.message_hash == hashFn (preHashStr cid s t)) = none := by
    rw [List.find?_eq_none]
    intro x hx
    simp only [beq_iff_eq]
    exact hfresh x hx
  have e1 : websocket_endpoint_step hashFn is_group cgid r self db
      (InFrame.parsed (Frame.mk (some "send_message") (some s) (some t) none)) =
      ({ db with
          messages := db.messages ++
            [{ id := db.nextId, chat_id := cid, sender_id := s, text := t,
               timestamp := db.clock, is_read := false,
               message_hash := hashFn (preHashStr cid s t) }]
          nextId := db.nextId + 1
          clock := db.clock + 1 },
       broadcastSends r cgid
         (Payload.event "new_message"
           { id := db.nextId, chat_id := cid, sender_id := s, text := t,
             timestamp := db.clock, is_read := false,
             message_hash := hashFn (preHashStr cid s t) })) := by
    unfold websocket_endpoint_step
    dsimp only
    simp only [Option.getD_some]
    rw [hval, hbeqS]
    simp only [Bool.false_eq_true, if_false, if_true]
    rw [hres]
    unfold create_message
    dsimp only
    rw [hfind]
  have hres2 : resolveChatId
      ({ db with
          messages := db.messages ++
            [{ id := db.nextId, chat_id := cid, sender_id := s, text := t,
               timestamp := db.clock, is_read := false,
               message_hash := hashFn (preHashStr cid s t) }]
          nextId := db.nextId + 1
          clock := db.clock + 1 } : DB) is_group cgid = some cid := hres
  have hfind2 : List.find?
      (fun x : Message => x.message_hash == hashFn (preHashStr cid s t))
      (db.messages ++
        [({ id := db.nextId, chat_id := cid, sender_id := s, text := t,
            timestamp := db.clock, is_read := false,
            message_hash := hashFn (preHashStr cid s t) } : Message)]) =
      some { id := db.nextId, chat_id := cid, sender_id := s, text := t,
             timestamp := db.clock, is_read := false,
             message_hash := hashFn (preHashStr cid s t) } := by
    rw [find?_append_of_none _ _ _ hfind]
    exact List.find?_cons_of_pos _ (by simp)
  have e2 : websocket_endpoint_step hashFn is_group cgid r self'
      ({ db with
          messages := db.messages ++
            [{ id := db.nextId, chat_id := cid, sender_id := s, text := t,
               timestamp := db.clock, is_read := false,
               message_hash := hashFn (preHashStr cid s t) }]
          nextId := db.nextId + 1
          clock := db.clock + 1 } : DB)
      (InFrame.parsed (Frame.mk (some "send_message") (some s) (some t) none)) =
      ({ db with
          messages := db.messages ++
            [{ id := db.nextId, chat_id := cid, sender_id := s, text := t,
               timestamp := db.clock, is_read := false,
               message_hash := hashFn (preHashStr cid s t) }]
          nextId := db.nextId + 1
          clock := db.clock + 1 },
       [(self', Payload.errorFrame "Внутренняя ошибка сервера")]) := by
    unfold websocket_endpoint_step
    dsimp only
    simp only [Option.getD_some]
    rw [hval, hbeqS]
    simp only [Bool.false_eq_true, if_false, if_true]
    rw [hres2]
    unfold create_message
    dsimp only
    rw [hfind2]
    rfl
  constructor
  · rw [e1]
    dsimp only
    rw [List.filter_append]
    have hnil : db.messages.filter
        (fun m => m.chat_id == cid && m.sender_id == s && m.text == t) = [] := by
      rw [List.filter_eq_nil_iff]
      intro m hm hq
      simp only [Bool.and_eq_true, beq_iff_eq] at hq
      apply hfresh m hm
      rw [hwf m hm, hq.1.1, hq.1.2, hq.2]
    rw [hnil]
    simp
  · rw [e1]
    exact e2

/-- Claim C1 witness: the theorem at a concrete chat 42 with two
registered connections, sender 7 and text "hi", the identity function
standing in for the hexdigest. -/
theorem C1_duplicate_send_witness :
    (7 : Int) ≠ 0 ∧ "hi" ≠ "" ∧
      resolveChatId
        { chats := [{ id := 42 }], groups := [], messages := [],
          nextId := 1, clock := 0 } false 42 = some 42 ∧
      (((websocket_endpoint_step id false 42 [((42 : Int), [0, 1])] 0
          { chats := [{ id := 42 }], groups := [], messages := [],
            nextId := 1, clock := 0 }
          (InFrame.parsed (Frame.mk (some "send_message") (some 7) (some "hi") none))).1.messages.filter
            (fun m => m.chat_id == (42 : Int) && m.sender_id == (7 : Int) && m.text == "hi")).length = 1
      ∧ websocket_endpoint_step id false 42 [((42 : Int), [0, 1])] 1
          (websocket_endpoint_step id false 42 [((42 : Int), [0, 1])] 0
            { chats := [{ id := 42 }], groups := [], messages := [],
              nextId := 1, clock := 0 }
            (InFrame.parsed (Frame.mk (some "send_message") (some 7) (some "hi") none))).1
          (InFrame.parsed (Frame.mk (some "send_message") (some 7) (some "hi") none)) =
        ((websocket_endpoint_step id false 42 [((42 : Int), [0, 1])] 0
            { chats := [{ id := 42 }], groups := [], messages := [],
              nextId := 1, clock := 0 }
            (InFrame.parsed (Frame.mk (some "send_message") (some 7) (some "hi") none))).1,
         [(1, Payload.errorFrame "Внутренняя ошибка сервера")])) :=
  ⟨by decide, by decide, by decide,
   C1_duplicate_send_second_rejected id false 42 42 [((42 : Int), [0, 1])] 0 1
     { chats := [{ id := 42 }], groups := [], messages := [],
       nextId := 1, clock := 0 } 7 "hi"
     (by decide) (by decide) (by decide)
     (fun m hm => absurd hm (List.not_mem_nil m))
     (fun m hm => absurd hm (List.not_mem_nil m))⟩

/- ### Theorems: connection initiation -/

/-- Claim C10 (code bug): with a valid token and both chat_id and group_id
present, websocket_route does select the chat_id branch — the connection
is not policy-closed, is_group is false and group_id is ignored — but the
dispatched call passes the keyword argument user_email, which the
signature of websocket_endpoint (websocket.py line 44) does not accept, so
Python raises TypeError and no session is ever bound.  The claim matches
the dispatch logic's evident intent; the call-site/signature mismatch is
the slip. -/
theorem C10_chat_id_branch_type_error :
    websocket_route (fun _ => true)
        { token := some "tok", chat_id := some "1", group_id := some "2" } =
      RouteOutcome.call 1 false ["is_group", "user_email"] ∧
    callRaisesTypeError ["is_group", "user_email"] = true := by
  constructor
  · decide
  · decide

end FastAPIChat
